/-
Verification of the Scintilla IME composition-caret plugin
(src/addon/globalPlugins/scintillaIMECaretFix/__init__.py).

The plugin tracks a cursor offset inside an IME composition string
(`_onGesture`), resolves and announces the character implied by a cursor
move (`_announceCharacter` / `_doAnnounce`), and polls the composition
string for edits to mirror on braille (`_pollCompositionChanges` /
`_stopCompositionPolling`).

Embedding conventions:
* Python strings become `List Char`; an empty composition string is the
  same as an absent one (the code tests `compObj.compositionString` for
  truthiness, so `""` and `None`/missing coincide).
* `self._cursorPos` is a Python `int`, so it is embedded as `Int`.
* External calls that may raise (`api.getFocusObject`,
  `compObj.compositionString`, ...) are modelled as `Except Unit`-valued
  fields of an environment record; a callback body is an `Except`
  computation and the installed callback is the body wrapped in the
  source's `try/except` handler.
* Side effects (braille output, speech, `wx.CallLater` / `wx.CallAfter`
  registrations, timer cancellation) are recorded as an event list.
-/

import Mathlib

namespace ScintillaIME

/-- Events emitted by the plugin's callbacks: timer (de)registrations,
braille/speech output, and deferred-call registrations. -/
inductive Ev where
  | cancelTimer (t : Nat)
  | scheduleTick (delay : Nat) (t : Nat)
  | brailleMsg (s : List Char)
  | callAfterAnnounce (s : List Char) (pos : Int) (dir : Int)
  | callLaterAnnounce (delay : Nat) (c : Char)
  | cancelSpeech
  | speak (c : Char)
  | brailleChar (c : Char)
  deriving DecidableEq, Repr

/-- The cursor-tracking fields of `GlobalPlugin`: `_compositionString`,
`_cursorPos` and `_lastCompObjId`. -/
structure CursorState where
  compositionString : List Char
  cursorPos : Int
  lastCompObjId : Option Nat
  deriving DecidableEq, Repr

/-- The polling fields of `GlobalPlugin`: `_pollTimer` (a timer handle or
`None`), `_isMonitoring` and `_lastPolledComposition`. -/
structure PollState where
  pollTimer : Option Nat
  isMonitoring : Bool
  lastPolledComposition : List Char
  deriving DecidableEq, Repr

/-- All mutable plugin state (`__init__` fields). -/
structure PluginState where
  cursor : CursorState
  poll : PollState
  deriving DecidableEq, Repr

/-- Initial state set in `__init__`. -/
def initState : PluginState :=
  { cursor := { compositionString := [], cursorPos := 0, lastCompObjId := none }
    poll := { pollTimer := none, isMonitoring := false, lastPolledComposition := [] } }

/-- The new-composition reconciliation inside `_onGesture`
(`if compObjId != self._lastCompObjId or compString != self._compositionString`):
on a new identity or new content, store both and reset the cursor to the
end of the string; otherwise leave the state unchanged. -/
def onComposition (st : CursorState) (compObjId : Nat) (compString : List Char) :
    CursorState :=
  if some compObjId ≠ st.lastCompObjId ∨ compString ≠ st.compositionString then
    { compositionString := compString
      cursorPos := (compString.length : Int)
      lastCompObjId := some compObjId }
  else
    st

/-- The cursor-move step inside `_onGesture`: `newPos = self._cursorPos +
arrowDirection`; commit only when `0 <= newPos <= len(compString)`.
Returns the new state, whether the move was committed (an announcement is
scheduled exactly in that case), and the offset after the call. -/
def moveCursor (st : CursorState) (direction : Int) :
    CursorState × Bool × Int :=
  let newPos := st.cursorPos + direction
  if 0 ≤ newPos ∧ newPos ≤ (st.compositionString.length : Int) then
    ({ st with cursorPos := newPos }, true, newPos)
  else
    (st, false, st.cursorPos)

/-- Character resolution in `_announceCharacter`: left (`direction < 0`)
reads `compString[cursorPos]`, right reads `compString[cursorPos - 1]`,
each guarded by a bounds check; `none` when the string is empty or the
index is out of range. -/
def resolveChar (compString : List Char) (cursorPos direction : Int) :
    Option Char :=
  if compString = [] then none
  else if direction < 0 then
    if 0 ≤ cursorPos ∧ cursorPos < (compString.length : Int) then
      compString[cursorPos.toNat]?
    else none
  else
    let charPos := cursorPos - 1
    if 0 ≤ charPos ∧ charPos < (compString.length : Int) then
      compString[charPos.toNat]?
    else none

/-- `_announceCharacter`: resolve the character; if one was resolved,
register the deferred announcement `wx.CallLater(150, self._doAnnounce,
char)`. -/
def announceCharacter (compString : List Char) (cursorPos direction : Int) :
    List Ev :=
  match resolveChar compString cursorPos direction with
  | some c => [Ev.callLaterAnnounce 150 c]
  | none => []

/-- `_doAnnounce`: cancel pending speech, speak the character, then send
it to braille, in that order. -/
def doAnnounce (c : Char) : List Ev :=
  [Ev.cancelSpeech, Ev.speak c, Ev.brailleChar c]

/-- `_stopCompositionPolling`: cancel the pending timer when one is
registered, clear the timer field, clear `_isMonitoring` and
`_lastPolledComposition`. -/
def stopCompositionPolling (st : PollState) : PollState × List Ev :=
  ({ pollTimer := none, isMonitoring := false, lastPolledComposition := [] },
   match st.pollTimer with
   | some t => [Ev.cancelTimer t]
   | none => [])

/-- `_startCompositionPolling`: when no timer is registered, register a
50-unit tick and set `_isMonitoring`. -/
def startCompositionPolling (st : PollState) (nextTimer : Nat) :
    PollState × List Ev :=
  match st.pollTimer with
  | none =>
      ({ st with pollTimer := some nextTimer, isMonitoring := true },
       [Ev.scheduleTick 50 nextTimer])
  | some _ => (st, [])

/-- External observations a poll tick makes.  `focusScintilla` is
`api.getFocusObject` combined with `isScintillaWindow` (the latter
swallows its own exceptions and returns `False`); `composition` is the
located composition string, `[]` standing for absent or empty.  `.error`
models a raised exception.  `nextTimer` is the handle a fresh
`wx.CallLater` would return. -/
structure PollEnv where
  focusScintilla : Except Unit Bool
  composition : Except Unit (List Char)
  nextTimer : Nat

/-- The `try`-block of `_pollCompositionChanges`; a raised exception in a
lookup propagates out as `Except.error`. -/
def pollTickBody (st : PollState) (env : PollEnv) :
    Except Unit (PollState × List Ev) :=
  match env.focusScintilla with
  | Except.error e => Except.error e
  | Except.ok focusOk =>
    if ¬focusOk then
      Except.ok (stopCompositionPolling st)
    else
      match env.composition with
      | Except.error e => Except.error e
      | Except.ok comp =>
        if comp ≠ [] then
          if comp ≠ st.lastPolledComposition then
            Except.ok ({ st with pollTimer := some env.nextTimer,
                                 lastPolledComposition := comp },
                       [Ev.brailleMsg comp, Ev.scheduleTick 50 env.nextTimer])
          else
            Except.ok ({ st with pollTimer := some env.nextTimer },
                       [Ev.scheduleTick 50 env.nextTimer])
        else
          Except.ok (stopCompositionPolling st)

/-- `_pollCompositionChanges`: the body wrapped in its `except` clause,
which logs and calls `_stopCompositionPolling`. -/
def pollTick (st : PollState) (env : PollEnv) : PollState × List Ev :=
  match pollTickBody st env with
  | Except.ok r => r
  | Except.error _ => stopCompositionPolling st

/-- External observations the gesture handler makes.  `arrow` is the
direction decoded from the gesture (`-1` left, `1` right, `0` other).
`_onGesture` performs two independent fallible lookup sequences — one
for the monitoring-start check and a second one for the arrow-key
handling — each calling `api.getFocusObject`, walking the composition
object and reading `compositionString`; each sequence has its own
outcome here, and either may raise.  `composition` carries
`(id(compObj), compositionString)` with `none` standing for absent or
empty. -/
structure GestureEnv where
  arrow : Int
  focusScintilla1 : Except Unit Bool
  composition1 : Except Unit (Option (Nat × List Char))
  focusScintilla2 : Except Unit Bool
  composition2 : Except Unit (Option (Nat × List Char))
  nextTimer : Nat

/-- The `try`-block of `_onGesture`: start polling on any qualifying
keystroke, then handle arrow keys by reconciling the composition and
moving the cursor, scheduling an announcement on a committed move.  A
raise in either lookup sequence aborts the body; the `error` payload is
the plugin state and the effects already performed when the raise
occurred (in Python those mutations and registrations persist), so a
raise in the second sequence happens with polling possibly already
started. -/
def onGestureBody (st : PluginState) (env : GestureEnv) :
    Except (PluginState × List Ev) (PluginState × List Ev) :=
  match env.focusScintilla1 with
  | Except.error _ => Except.error (st, [])
  | Except.ok focusOk =>
    let step1 : Except (PluginState × List Ev) (PluginState × List Ev) :=
      if focusOk then
        match env.composition1 with
        | Except.error _ => Except.error (st, [])
        | Except.ok (some _) =>
            if ¬st.poll.isMonitoring then
              let r := startCompositionPolling st.poll env.nextTimer
              Except.ok ({ st with poll := r.1 }, r.2)
            else Except.ok (st, [])
        | Except.ok none => Except.ok (st, [])
      else Except.ok (st, [])
    match step1 with
    | Except.error r => Except.error r
    | Except.ok (st1, evs1) =>
      if env.arrow ≠ 0 then
        match env.focusScintilla2 with
        | Except.error _ => Except.error (st1, evs1)
        | Except.ok focusOk2 =>
          if focusOk2 then
            match env.composition2 with
            | Except.error _ => Except.error (st1, evs1)
            | Except.ok (some (cid, cs)) =>
                let c1 := onComposition st1.cursor cid cs
                let r := moveCursor c1 env.arrow
                if r.2.1 then
                  Except.ok ({ st1 with cursor := r.1 },
                    evs1 ++ [Ev.callAfterAnnounce cs r.1.cursorPos env.arrow])
                else
                  Except.ok ({ st1 with cursor := r.1 }, evs1)
            | Except.ok none => Except.ok (st1, evs1)
          else Except.ok (st1, evs1)
      else Except.ok (st1, evs1)

/-- `_onGesture`: the body wrapped in its `except` clause, which only
logs — the state and effects accumulated up to the raise stand — and the
unconditional `return True`. -/
def onGesture (st : PluginState) (env : GestureEnv) :
    PluginState × List Ev × Bool :=
  match onGestureBody st env with
  | Except.ok r => (r.1, r.2, true)
  | Except.error r => (r.1, r.2, true)

/-- Which of the three external calls inside `_doAnnounce`
(`speech.cancelSpeech`, `speech.speakText`, `braille.handler.message`)
raises, if any; the calls are attempted in source order. -/
structure AnnounceEnv where
  cancelSpeechRaises : Bool
  speakRaises : Bool
  brailleRaises : Bool

/-- The `try`-block of `_doAnnounce`: perform the three output actions in
order; a raise aborts the rest, the `error` payload being the actions
already performed. -/
def doAnnounceBody (c : Char) (env : AnnounceEnv) :
    Except (List Ev) (List Ev) :=
  if env.cancelSpeechRaises then Except.error []
  else if env.speakRaises then Except.error [Ev.cancelSpeech]
  else if env.brailleRaises then Except.error [Ev.cancelSpeech, Ev.speak c]
  else Except.ok (doAnnounce c)

/-- `_doAnnounce` with its `except` clause, which only logs: the callback
completes either way, having performed exactly the actions of the body,
and touches no plugin state (it takes none). -/
def doAnnounceRun (c : Char) (env : AnnounceEnv) : List Ev :=
  match doAnnounceBody c env with
  | Except.ok evs => evs
  | Except.error evs => evs

/-- The cursor-state invariant: the offset lies inside the composition
string. -/
def cursorInv (st : CursorState) : Prop :=
  0 ≤ st.cursorPos ∧ st.cursorPos ≤ (st.compositionString.length : Int)

instance (st : CursorState) : Decidable (cursorInv st) := by
  unfold cursorInv; infer_instance

/-- C1: a cursor move in direction `d ∈ {-1, +1}` from a valid state
commits `offset + d` and succeeds exactly when the candidate stays inside
`[0, length(content)]` (then the offset changes by exactly 1); otherwise
the state is unchanged and the move fails reporting the old offset; in
particular a left move at offset `0` and a right move at
`length(content)` both fail. -/
theorem C1_moveCursor (st : CursorState) (d : Int)
    (hd : d = -1 ∨ d = 1) (hinv : cursorInv st) :
    ((0 ≤ st.cursorPos + d ∧ st.cursorPos + d ≤ (st.compositionString.length : Int)) →
      moveCursor st d =
        ({ st with cursorPos := st.cursorPos + d }, true, st.cursorPos + d) ∧
      ((moveCursor st d).1.cursorPos - st.cursorPos).natAbs = 1) ∧
    (¬(0 ≤ st.cursorPos + d ∧ st.cursorPos + d ≤ (st.compositionString.length : Int)) →
      moveCursor st d = (st, false, st.cursorPos)) ∧
    (d = -1 ∧ st.cursorPos = 0 → moveCursor st d = (st, false, st.cursorPos)) ∧
    (d = 1 ∧ st.cursorPos = (st.compositionString.length : Int) →
      moveCursor st d = (st, false, st.cursorPos)) := by
  unfold moveCursor
  by_cases h : 0 ≤ st.cursorPos + d ∧ st.cursorPos + d ≤ (st.compositionString.length : Int)
  · simp only [if_pos h]
    refine ⟨fun _ => ⟨by trivial, ?_⟩, fun hc => absurd h hc, ?_, ?_⟩
    · rcases hd with rfl | rfl <;> simp
    · rintro ⟨rfl, hp⟩
      exact absurd h.1 (by omega)
    · rintro ⟨rfl, hp⟩
      exact absurd h.2 (by omega)
  · simp only [if_neg h]
    exact ⟨fun hc => absurd hc h, fun _ => by trivial, fun _ => by trivial,
      fun _ => by trivial⟩

/-- Witness for C1 at `content = "ab"`, `offset = 2`, direction `-1`:
the move commits offset `1` and succeeds. -/
theorem C1_moveCursor_witness :
    moveCursor ⟨['a', 'b'], 2, none⟩ (-1) = (⟨['a', 'b'], 1, none⟩, true, 1) := by
  have h := (C1_moveCursor ⟨['a', 'b'], 2, none⟩ (-1) (Or.inl rfl) (by decide)).1
    (by decide)
  exact h.1

/-- C2: an observed composition with a new identity or new content is
stored with the offset reset to `length(text)` regardless of the old
offset; when identity and content both match, nothing changes. -/
theorem C2_onComposition (st : CursorState) (cid : Nat) (text : List Char) :
    ((some cid ≠ st.lastCompObjId ∨ text ≠ st.compositionString) →
      onComposition st cid text =
        { compositionString := text, cursorPos := (text.length : Int),
          lastCompObjId := some cid }) ∧
    (some cid = st.lastCompObjId ∧ text = st.compositionString →
      onComposition st cid text = st) := by
  unfold onComposition
  by_cases h : some cid ≠ st.lastCompObjId ∨ text ≠ st.compositionString
  · simp only [if_pos h]
    exact ⟨fun _ => by trivial, fun hc => absurd h (by simp [hc.1, hc.2])⟩
  · simp only [if_neg h]
    exact ⟨fun hc => absurd hc h, fun _ => by trivial⟩

/-- Witness for C2: a fresh identity resets the offset to the new length
even though the old offset was `0`. -/
theorem C2_onComposition_witness :
    onComposition ⟨['x'], 0, some 3⟩ 4 ['a', 'b'] = ⟨['a', 'b'], 2, some 4⟩ := by
  have h := (C2_onComposition ⟨['x'], 0, some 3⟩ 4 ['a', 'b']).1 (by decide)
  exact h

/-- C3: after a successful move landing at offset `k`, a left move
resolves `text[k]` and a right move resolves `text[k-1]`; the index is
always in range, so a character is resolved and an announcement is
scheduled. -/
theorem C3_characterFor (st st' : CursorState) (d k : Int)
    (hinv : cursorInv st) (hd : d = -1 ∨ d = 1)
    (hmv : moveCursor st d = (st', true, k)) :
    (d = -1 →
      resolveChar st.compositionString k d = st.compositionString[k.toNat]? ∧
      (st.compositionString[k.toNat]?).isSome = true) ∧
    (d = 1 →
      resolveChar st.compositionString k d = st.compositionString[(k - 1).toNat]? ∧
      (st.compositionString[(k - 1).toNat]?).isSome = true) ∧
    announceCharacter st.compositionString k d ≠ [] := by
  obtain ⟨hi1, hi2⟩ := hinv
  unfold moveCursor at hmv
  by_cases h : 0 ≤ st.cursorPos + d ∧ st.cursorPos + d ≤ (st.compositionString.length : Int)
  · simp only [if_pos h] at hmv
    obtain ⟨h1, h2⟩ := h
    have hk : k = st.cursorPos + d := by
      have heq := congrArg (fun p => p.2.2) hmv
      simp at heq
      omega
    rcases hd with rfl | rfl
    · have hlt : k.toNat < st.compositionString.length := by omega
      have hne : st.compositionString ≠ [] := by
        intro hnil
        rw [hnil] at hlt
        simp at hlt
      have hres : resolveChar st.compositionString k (-1) =
          st.compositionString[k.toNat]? := by
        unfold resolveChar
        rw [if_neg hne, if_pos (by norm_num), if_pos (by constructor <;> omega)]
      have hsome : (st.compositionString[k.toNat]?).isSome = true := by
        rw [List.getElem?_eq_getElem hlt]
        rfl
      refine ⟨fun _ => ⟨hres, hsome⟩, fun habs => by norm_num at habs, ?_⟩
      unfold announceCharacter
      rw [hres, List.getElem?_eq_getElem hlt]
      simp
    · have hlt : (k - 1).toNat < st.compositionString.length := by omega
      have hne : st.compositionString ≠ [] := by
        intro hnil
        rw [hnil] at hlt
        simp at hlt
      have hres : resolveChar st.compositionString k 1 =
          st.compositionString[(k - 1).toNat]? := by
        unfold resolveChar
        rw [if_neg hne, if_neg (by norm_num), if_pos (by constructor <;> omega)]
      have hsome : (st.compositionString[(k - 1).toNat]?).isSome = true := by
        rw [List.getElem?_eq_getElem hlt]
        rfl
      refine ⟨fun habs => by norm_num at habs, fun _ => ⟨hres, hsome⟩, ?_⟩
      unfold announceCharacter
      rw [hres, List.getElem?_eq_getElem hlt]
      simp
  · simp only [if_neg h] at hmv
    have hfalse := congrArg (fun p => p.2.1) hmv
    simp at hfalse

/-- Witness for C3 at `content = "ab"`, a successful left move from
offset `2` landing at `1`: the resolved character is `text[1] = b` and an
announcement is scheduled. -/
theorem C3_characterFor_witness :
    resolveChar ['a', 'b'] 1 (-1) = (['a', 'b'][(1 : Int).toNat]?) ∧
    announceCharacter ['a', 'b'] 1 (-1) ≠ [] := by
  have h := C3_characterFor ⟨['a', 'b'], 2, none⟩ ⟨['a', 'b'], 1, none⟩ (-1) 1
    (by decide) (Or.inl rfl) (by decide)
  exact ⟨(h.1 rfl).1, h.2.2⟩

/-- C4: the invariant `0 ≤ offset ≤ length(content)` is preserved by
new-session reconciliation and by every move (successful or boundary),
and by their composition as performed by the gesture handler. -/
theorem C4_invariant (st : CursorState) (cid : Nat) (text : List Char) (d : Int)
    (hinv : cursorInv st) :
    cursorInv (onComposition st cid text) ∧
    cursorInv (moveCursor st d).1 ∧
    cursorInv (moveCursor (onComposition st cid text) d).1 := by
  have honc : ∀ (s : CursorState), cursorInv s → cursorInv (onComposition s cid text) := by
    intro s hs
    unfold onComposition
    by_cases h : some cid ≠ s.lastCompObjId ∨ text ≠ s.compositionString
    · rw [if_pos h]
      exact ⟨by positivity, le_refl _⟩
    · rw [if_neg h]
      exact hs
  have hmv : ∀ (s : CursorState), cursorInv s → cursorInv (moveCursor s d).1 := by
    intro s hs
    unfold moveCursor
    by_cases h : 0 ≤ s.cursorPos + d ∧ s.cursorPos + d ≤ (s.compositionString.length : Int)
    · rw [if_pos h]
      exact h
    · rw [if_neg h]
      exact hs
  exact ⟨honc st hinv, hmv st hinv, hmv _ (honc st hinv)⟩

/-- Witness for C4 at `content = "ab"`, `offset = 1`, a new composition
`"xyz"` and a right move: all three resulting states satisfy the
invariant. -/
theorem C4_invariant_witness :
    cursorInv (onComposition ⟨['a', 'b'], 1, none⟩ 5 ['x', 'y', 'z']) ∧
    cursorInv (moveCursor ⟨['a', 'b'], 1, none⟩ 1).1 ∧
    cursorInv (moveCursor (onComposition ⟨['a', 'b'], 1, none⟩ 5 ['x', 'y', 'z']) 1).1 :=
  C4_invariant ⟨['a', 'b'], 1, none⟩ 5 ['x', 'y', 'z'] 1 (by decide)

/-- C5: on a tick whose focus and composition lookups succeed with a
non-empty composition `c`, braille output of `c` is emitted iff `c`
differs from `lastPolledComposition` (then `lastPolledComposition`
becomes `c`), and the next tick is rescheduled either way; no braille is
emitted on an unchanged tick. -/
theorem C5_pollTick (st : PollState) (env : PollEnv) (c : List Char)
    (hfocus : env.focusScintilla = Except.ok true)
    (hcomp : env.composition = Except.ok c) (hne : c ≠ []) :
    (c ≠ st.lastPolledComposition →
      pollTick st env =
        ({ st with pollTimer := some env.nextTimer, lastPolledComposition := c },
         [Ev.brailleMsg c, Ev.scheduleTick 50 env.nextTimer])) ∧
    (c = st.lastPolledComposition →
      pollTick st env =
        ({ st with pollTimer := some env.nextTimer },
         [Ev.scheduleTick 50 env.nextTimer])) ∧
    (∀ s, Ev.brailleMsg s ∈ (pollTick st env).2 ↔
      (s = c ∧ c ≠ st.lastPolledComposition)) ∧
    Ev.scheduleTick 50 env.nextTimer ∈ (pollTick st env).2 := by
  unfold pollTick pollTickBody
  rw [hfocus, hcomp]
  by_cases hch : c ≠ st.lastPolledComposition
  · refine ⟨fun _ => ?_, fun hc => absurd hc hch, fun s => ?_, ?_⟩
    · simp [hne, hch]
    · simp only [hne, hch]
      simp [hne, hch, eq_comm]
    · simp [hne, hch]
  · push_neg at hch
    have hne' : st.lastPolledComposition ≠ [] := hch ▸ hne
    refine ⟨fun hc => absurd hch hc, fun _ => ?_, fun s => ?_, ?_⟩
    · simp [hne', hch]
    · simp [hne', hch]
    · simp [hne', hch]

/-- Witness for C5: a tick seeing `"he"` after `"h"` emits braille
`"he"`, updates `lastPolledComposition` and reschedules. -/
theorem C5_pollTick_witness :
    pollTick ⟨some 1, true, ['h']⟩
        ⟨Except.ok true, Except.ok ['h', 'e'], 2⟩ =
      (⟨some 2, true, ['h', 'e']⟩,
       [Ev.brailleMsg ['h', 'e'], Ev.scheduleTick 50 2]) := by
  have h := (C5_pollTick ⟨some 1, true, ['h']⟩
    ⟨Except.ok true, Except.ok ['h', 'e'], 2⟩ ['h', 'e'] rfl rfl (by decide)).1
    (by decide)
  exact h

/-- C6: on a tick where focus classification fails, or the composition is
absent/empty, the poller stops: pending registration cancelled, state
Idle with `lastPolledComposition` cleared, and no tick rescheduled. -/
theorem C6_pollStops (st : PollState) (env : PollEnv)
    (h : env.focusScintilla = Except.ok false ∨
      (env.focusScintilla = Except.ok true ∧ env.composition = Except.ok [])) :
    pollTick st env = stopCompositionPolling st ∧
    (pollTick st env).1 =
      { pollTimer := none, isMonitoring := false, lastPolledComposition := [] } ∧
    (∀ t, st.pollTimer = some t → Ev.cancelTimer t ∈ (pollTick st env).2) ∧
    (∀ dl t, Ev.scheduleTick dl t ∉ (pollTick st env).2) := by
  have hstop : pollTick st env = stopCompositionPolling st := by
    unfold pollTick pollTickBody
    rcases h with hf | ⟨hf, hc⟩
    · rw [hf]
      simp
    · rw [hf, hc]
      simp
  refine ⟨hstop, ?_, ?_, ?_⟩
  · rw [hstop]
    rfl
  · intro t ht
    rw [hstop]
    unfold stopCompositionPolling
    rw [ht]
    simp
  · intro dl t hmem
    rw [hstop] at hmem
    unfold stopCompositionPolling at hmem
    rcases hp : st.pollTimer with _ | t'
    · rw [hp] at hmem
      simp at hmem
    · rw [hp] at hmem
      simp at hmem

/-- Witness for C6: an Active poller whose tick finds the composition
empty stops, cancelling its timer and scheduling nothing. -/
theorem C6_pollStops_witness :
    pollTick ⟨some 3, true, ['h']⟩ ⟨Except.ok true, Except.ok [], 4⟩ =
      stopCompositionPolling ⟨some 3, true, ['h']⟩ ∧
    Ev.cancelTimer 3 ∈
      (pollTick ⟨some 3, true, ['h']⟩ ⟨Except.ok true, Except.ok [], 4⟩).2 := by
  have h := C6_pollStops ⟨some 3, true, ['h']⟩ ⟨Except.ok true, Except.ok [], 4⟩
    (Or.inr ⟨rfl, rfl⟩)
  exact ⟨h.1, h.2.2.1 3 rfl⟩

/-- C7: a resolved character is scheduled with a fixed 150-unit delay,
and the deferred callback performs, in order: cancel speech, speak the
character, braille the character. -/
theorem C7_announcement (s : List Char) (pos d : Int) (c : Char)
    (h : resolveChar s pos d = some c) :
    announceCharacter s pos d = [Ev.callLaterAnnounce 150 c] ∧
    doAnnounce c = [Ev.cancelSpeech, Ev.speak c, Ev.brailleChar c] := by
  unfold announceCharacter
  rw [h]
  exact ⟨rfl, rfl⟩

/-- Witness for C7 at `content = "ab"`, a left move landing at offset 1:
the character `b` is scheduled at delay 150 and announced as
cancel-speak-braille. -/
theorem C7_announcement_witness :
    announceCharacter ['a', 'b'] 1 (-1) = [Ev.callLaterAnnounce 150 'b'] ∧
    doAnnounce 'b' = [Ev.cancelSpeech, Ev.speak 'b', Ev.brailleChar 'b'] :=
  C7_announcement ['a', 'b'] 1 (-1) 'b' (by decide)

/-- C8: the gesture handler returns True (continue normal processing) for
every key event and every environment, including ones whose lookups
raise. -/
theorem C8_onGesture_returns_true (st : PluginState) (env : GestureEnv) :
    (onGesture st env).2.2 = true := by
  unfold onGesture
  rcases hb : onGestureBody st env with e | r
  · rfl
  · rfl

/-- C9 counterexample: a fault during an Active poll tick does not leave
the poll state unchanged — the poller is stopped. -/
theorem C9_counterexample :
    (pollTick ⟨some 7, true, ['a']⟩
        ⟨Except.ok true, Except.error (), 8⟩).1 ≠
      (⟨some 7, true, ['a']⟩ : PollState) := by
  decide

/-- C9 (amended): a fault in a callback is caught at that callback's
boundary, logged, and never propagates; the catch handler itself
performs no further state change in the gesture handler (which still
returns True with exactly the state and effects accumulated up to the
fault — mutations made before it, such as having started the poller,
persist) and in the deferred announcement (which completes having
performed exactly the actions preceding the fault and touches no plugin
state); but a faulting poll tick does not complete as a no-op: its
handler stops the poller (cancels the pending registration, goes Idle,
clears `lastPolledComposition`). -/
theorem C9_faults_contained (st : PluginState) (env : GestureEnv)
    (r : PluginState × List Ev) (pst : PollState) (penv : PollEnv) (v : Unit)
    (c : Char) (aenv : AnnounceEnv) (evs : List Ev)
    (hg : onGestureBody st env = Except.error r)
    (hp : pollTickBody pst penv = Except.error v)
    (ha : doAnnounceBody c aenv = Except.error evs) :
    onGesture st env = (r.1, r.2, true) ∧
    pollTick pst penv = stopCompositionPolling pst ∧
    doAnnounceRun c aenv = evs := by
  refine ⟨?_, ?_, ?_⟩
  · unfold onGesture
    rw [hg]
  · unfold pollTick
    rw [hp]
  · unfold doAnnounceRun
    rw [ha]

/-- Witness for C9 (amended): a gesture whose second lookup sequence
raises after polling was started keeps the started poller and its
scheduled tick while returning True; a faulting poll tick stops the
poller; an announcement whose speak call raises completes having
performed only the speech cancellation. -/
theorem C9_faults_contained_witness :
    onGesture initState
        ⟨1, Except.ok true, Except.ok (some (5, ['a', 'b'])), Except.error (),
         Except.ok none, 42⟩ =
      ({ cursor := ⟨[], 0, none⟩, poll := ⟨some 42, true, []⟩ },
       [Ev.scheduleTick 50 42], true) ∧
    pollTick ⟨some 7, true, ['a']⟩ ⟨Except.ok true, Except.error (), 8⟩ =
      stopCompositionPolling ⟨some 7, true, ['a']⟩ ∧
    doAnnounceRun 'b' ⟨false, true, false⟩ = [Ev.cancelSpeech] :=
  C9_faults_contained initState
    ⟨1, Except.ok true, Except.ok (some (5, ['a', 'b'])), Except.error (),
     Except.ok none, 42⟩
    ({ cursor := ⟨[], 0, none⟩, poll := ⟨some 42, true, []⟩ },
     [Ev.scheduleTick 50 42])
    ⟨some 7, true, ['a']⟩ ⟨Except.ok true, Except.error (), 8⟩ ()
    'b' ⟨false, true, false⟩ [Ev.cancelSpeech] rfl rfl rfl

/-- C10: stopping the poller is idempotent — a second stop changes
nothing and cancels nothing; a stop leaves the Idle state with no pending
registration and `lastPolledComposition` cleared, and every cancellation
it emits is of the poller's own stored registration. -/
theorem C10_stop_idempotent (st : PollState) :
    stopCompositionPolling (stopCompositionPolling st).1 =
      ((stopCompositionPolling st).1, []) ∧
    (stopCompositionPolling st).1 =
      { pollTimer := none, isMonitoring := false, lastPolledComposition := [] } ∧
    (∀ e, e ∈ (stopCompositionPolling st).2 →
      ∃ t, st.pollTimer = some t ∧ e = Ev.cancelTimer t) := by
  refine ⟨rfl, rfl, ?_⟩
  intro e he
  unfold stopCompositionPolling at he
  rcases hp : st.pollTimer with _ | t
  · rw [hp] at he
    simp at he
  · rw [hp] at he
    simp at he
    exact ⟨t, rfl, he⟩

end ScintillaIME
